import Mathlib

/-!
Verification of `src/commons/actor.rs` (krill): actors, attribute bags,
actor templates and the authorization check `is_allowed`.

Rust `HashMap<String, String>` is embedded as `Finmap (fun _ : String => String)`,
whose equality is key/value-set equality, matching `HashMap`'s `PartialEq`.
-/

namespace Krill

/-- The string-to-string mapping type standing for Rust
`HashMap<String, String>`. -/
def StrMap : Type := Finmap (fun _ : String => String)

instance : DecidableEq StrMap := Finmap.decidableEq

instance : EmptyCollection StrMap := ⟨(∅ : Finmap (fun _ : String => String))⟩

/-- Lookup in a `StrMap`, standing for `HashMap::get(...).cloned()`. -/
def StrMap.get (m : StrMap) (k : String) : Option String :=
  Finmap.lookup k m

/-- Insertion into a `StrMap`, standing for `HashMap::insert`. -/
def StrMap.insert (m : StrMap) (k v : String) : StrMap :=
  Finmap.insert k v m

/-- Modelled from the spec: the refreshed-credential payload
(`daemon::auth::Auth`), which is not under `src/`; the spec treats it as an
opaque payload carried through construction, so it is embedded as an opaque
token wrapper. -/
structure Auth where
  payload : String
deriving DecidableEq

/-- Modelled from the spec: `commons::error::Error`, not under `src/`; the
spec's error taxonomy says `InvalidCredentials(message)` is the only error
`is_allowed` surfaces (Rust: `Error::ApiInvalidCredentials`). -/
inductive Error where
  | ApiInvalidCredentials (msg : String)
deriving DecidableEq

/-- Rust `enum ActorName { AsStaticStr(&'static str), AsString(String) }` with the
derived (`#[derive(Eq, PartialEq)]`) structural equality. -/
inductive ActorName where
  | AsStaticStr (s : String)
  | AsString (s : String)
deriving DecidableEq

/-- Rust `ActorName::as_str`: the underlying text regardless of tag. -/
def ActorName.as_str : ActorName → String
  | .AsStaticStr s => s
  | .AsString s => s

/-- Rust `enum Attributes { None, RoleOnly(&'static str), UserDefined(HashMap<..>) }`
with the derived `PartialEq` (on `UserDefined`, `HashMap` equality). -/
inductive Attributes where
  | None
  | RoleOnly (role : String)
  | UserDefined (map : StrMap)
deriving DecidableEq

/-- Rust `Attributes::as_map`. -/
def Attributes.as_map : Attributes → StrMap
  | .UserDefined map => map
  | .RoleOnly role => (∅ : StrMap).insert "role" role
  | .None => (∅ : StrMap)

/-- Rust `struct ActorDef` (the actor template). -/
structure ActorDef where
  name : ActorName
  is_user : Bool
  attributes : Attributes
  new_auth : Option Auth
  auth_error : Option String

/-- Rust `ActorDef::with_auth_error`: returns the template with the deferred-error
text set. -/
def ActorDef.with_auth_error (d : ActorDef) (error_msg : String) : ActorDef :=
  { d with auth_error := some error_msg }

/-- Rust `struct Actor`. The bound policy snapshot (`daemon::auth::policy::AuthPolicy`,
not under `src/`) is abstracted by a type parameter `P`; evaluation through it
is supplied to `is_allowed` as a function (see `Actor.is_allowed`). -/
structure Actor (P : Type) where
  name : ActorName
  is_user : Bool
  attributes : Attributes
  new_auth : Option Auth
  policy : Option P
  auth_error : Option String

/-- Rust `impl PartialEq for Actor`: compares only `name`, `is_user`, `attributes`. -/
def Actor.eqActor {P : Type} (a other : Actor P) : Prop :=
  a.name = other.name ∧ a.is_user = other.is_user ∧ a.attributes = other.attributes

instance {P : Type} (a b : Actor P) : Decidable (a.eqActor b) := by
  unfold Actor.eqActor; infer_instance

/-- Rust `impl PartialEq<ActorDef> for Actor`: compares only `name`, `is_user`,
`attributes`. -/
def Actor.eqDef {P : Type} (a : Actor P) (other : ActorDef) : Prop :=
  a.name = other.name ∧ a.is_user = other.is_user ∧ a.attributes = other.attributes

instance {P : Type} (a : Actor P) (d : ActorDef) : Decidable (a.eqDef d) := by
  unfold Actor.eqDef; infer_instance

/-- Rust `Actor::anonymous()`. -/
def Actor.anonymous : ActorDef :=
  { name := .AsStaticStr "anonymous"
    is_user := false
    attributes := .None
    new_auth := none
    auth_error := none }

/-- Rust `Actor::system(name, role)`. -/
def Actor.system (name role : String) : ActorDef :=
  { name := .AsStaticStr name
    attributes := .RoleOnly role
    is_user := false
    new_auth := none
    auth_error := none }

/-- Rust `Actor::user(name, attributes, new_auth)`. -/
def Actor.user (name : String) (attributes : StrMap) (new_auth : Option Auth) :
    ActorDef :=
  { name := .AsString name
    is_user := true
    attributes := .UserDefined attributes
    new_auth := new_auth
    auth_error := none }

/-- Rust `Actor::test_from_def(repr)`: test-only construction from a template;
no policy is bound, and `new_auth` / `auth_error` are set to `None`. -/
def Actor.test_from_def {P : Type} (repr : ActorDef) : Actor P :=
  { name := repr.name
    is_user := repr.is_user
    attributes := repr.attributes
    new_auth := none
    auth_error := none
    policy := none }

/-- Rust `Actor::test_from_details(name, attrs)`: test-only construction from raw
details; no policy is bound. -/
def Actor.test_from_details {P : Type} (name : String) (attrs : StrMap) :
    Actor P :=
  { name := .AsString name
    attributes := .UserDefined attrs
    is_user := false
    new_auth := none
    auth_error := none
    policy := none }

/-- Rust `Actor::new(repr, policy)`: bind a template to a policy snapshot. -/
def Actor.new {P : Type} (repr : ActorDef) (policy : P) : Actor P :=
  { name := repr.name
    is_user := repr.is_user
    attributes := repr.attributes
    new_auth := repr.new_auth
    auth_error := repr.auth_error
    policy := some policy }

/-- Rust `Actor::attributes()`: delegates to `Attributes::as_map`. -/
def Actor.attributes' {P : Type} (a : Actor P) : StrMap :=
  a.attributes.as_map

/-- Rust `Actor::attribute(attr_name)`. -/
def Actor.attributeOf {P : Type} (a : Actor P) (attr_name : String) :
    Option String :=
  match a.attributes with
  | .UserDefined map => map.get attr_name
  | .RoleOnly role => if attr_name = "role" then some role else none
  | .None => none

/-- Rust `Actor::name()`. -/
def Actor.name' {P : Type} (a : Actor P) : String :=
  a.name.as_str

/-- Rust `Actor::is_allowed` with `#[cfg(not(feature = "multi-user"))]`:
authorization enforcement disabled, unconditionally `Ok(true)`. -/
def Actor.is_allowed_single_user {P A R : Type} (_a : Actor P)
    (_action : A) (_resource : R) : Except Error Bool :=
  .ok true

/-- Rust `Actor::is_allowed` with `#[cfg(feature = "multi-user")]`.
The policy evaluator (`AuthPolicy::is_allowed`, not under `src/`; spec §6:
`evaluate(actor, action, resource) -> Result<bool, EvaluatorError>`) is passed
in as `evalPolicy`, with its internal error type abstracted as `E`. Logging is
side-effect-only and is not modelled. -/
def Actor.is_allowed {P A R E : Type}
    (evalPolicy : P → Actor P → A → R → Except E Bool)
    (a : Actor P) (action : A) (resource : R) : Except Error Bool :=
  match a.auth_error with
  | some error_msg => .error (.ApiInvalidCredentials error_msg)
  | none =>
    match a.policy with
    | some policy =>
      match evalPolicy policy a action resource with
      | .ok allowed => .ok allowed
      | .error _ => .ok false
    | none => .ok false

/-- Claim C1: if the actor carries a deferred-error text `text`, then for every
policy evaluator, every action and every resource, `is_allowed` returns
`Err(InvalidCredentials(text))`; since the result is the same for every
evaluator, the policy evaluator is never consulted. -/
theorem is_allowed_deferred_error_short_circuits {P A R E : Type}
    (evalPolicy : P → Actor P → A → R → Except E Bool)
    (a : Actor P) (text : String) (h : a.auth_error = some text)
    (action : A) (resource : R) :
    a.is_allowed evalPolicy action resource
      = .error (.ApiInvalidCredentials text) := by
  unfold Actor.is_allowed
  rw [h]

/-- Witness for C1: a template carrying deferred error "bad token", bound to a
policy, is refused with `InvalidCredentials "bad token")` even under an
evaluator that would have allowed everything. -/
theorem is_allowed_deferred_error_short_circuits_witness :
    (Actor.new (P := Unit) (Actor.anonymous.with_auth_error "bad token")
        ()).is_allowed
        (fun _ _ (_ : String) (_ : String) => (.ok true : Except Unit Bool))
        "read" "resource-1"
      = .error (.ApiInvalidCredentials "bad token") :=
  is_allowed_deferred_error_short_circuits _ _ "bad token" rfl "read" "resource-1"

/-- Claim C2: with no deferred error and a bound policy, an evaluator error is
swallowed into `Ok(false)` and never propagated. -/
theorem is_allowed_evaluator_error_swallowed {P A R E : Type}
    (evalPolicy : P → Actor P → A → R → Except E Bool)
    (a : Actor P) (p : P) (action : A) (resource : R) (e : E)
    (hne : a.auth_error = none) (hp : a.policy = some p)
    (he : evalPolicy p a action resource = .error e) :
    a.is_allowed evalPolicy action resource = .ok false := by
  simp only [Actor.is_allowed, hne, hp, he]

/-- Witness for C2: an anonymous actor bound to a policy whose evaluator always
fails is denied with `Ok(false)`. -/
theorem is_allowed_evaluator_error_swallowed_witness :
    (Actor.new (P := Unit) Actor.anonymous ()).is_allowed
        (fun _ _ (_ : String) (_ : String) => (.error () : Except Unit Bool))
        "read" "resource-1"
      = .ok false :=
  is_allowed_evaluator_error_swallowed _ _ () "read" "resource-1" ()
    rfl rfl rfl

/-- Claim C3: with no deferred error and no bound policy (test-support
construction), `is_allowed` returns `Ok(false)` for every action and resource;
the embedding is a total function, so no panic/abort is possible. -/
theorem is_allowed_missing_policy_denies {P A R E : Type}
    (evalPolicy : P → Actor P → A → R → Except E Bool)
    (a : Actor P) (action : A) (resource : R)
    (hne : a.auth_error = none) (hp : a.policy = none) :
    a.is_allowed evalPolicy action resource = .ok false := by
  unfold Actor.is_allowed
  rw [hne, hp]

/-- Witness for C3: an actor built by the test-only constructor
`test_from_details` (no bound policy) is denied with `Ok(false)`. -/
theorem is_allowed_missing_policy_denies_witness :
    (Actor.test_from_details (P := Unit) "joe" (∅ : StrMap)).is_allowed
        (fun _ _ (_ : String) (_ : String) => (.ok true : Except Unit Bool))
        "delete" "x"
      = .ok false :=
  is_allowed_missing_policy_denies _ _ "delete" "x" rfl rfl

/-- Counterexample to C4 as stated: `AsStaticStr "x"` and `AsString "x"` hold
the same underlying text, yet the derived equality on `ActorName` distinguishes
them, because it compares the tag as well as the text. -/
theorem actorName_mixed_tag_ne :
    (ActorName.AsStaticStr "x").as_str = (ActorName.AsString "x").as_str ∧
    ActorName.AsStaticStr "x" ≠ ActorName.AsString "x" := by
  decide

/-- Claim C4 (amended): two `ActorName` values are equal iff they carry the
same tag and the same underlying text; within a tag, equality is by text, but
`AsStaticStr s` never equals `AsString t`, even when `s = t`. -/
theorem actorName_eq_iff_same_tag_and_text (s t : String) :
    (ActorName.AsStaticStr s = ActorName.AsStaticStr t ↔ s = t) ∧
    (ActorName.AsString s = ActorName.AsString t ↔ s = t) ∧
    ActorName.AsStaticStr s ≠ ActorName.AsString t := by
  refine ⟨⟨fun h => ?_, fun h => by rw [h]⟩,
          ⟨fun h => ?_, fun h => by rw [h]⟩,
          fun h => ActorName.noConfusion h⟩
  · exact ActorName.AsStaticStr.inj h
  · exact ActorName.AsString.inj h

/-- Claim C5: Actor-vs-Actor and Actor-vs-template equality compare only
`name`, `is_user` and `attributes` (so any two actors agreeing on those three
fields are equal, whatever their `new_auth`, `auth_error` and `policy`), and
consequently binding one template to two different policy snapshots yields
equal actors, each equal to the template. -/
theorem actor_equality_excludes_transient_fields {P : Type}
    (T : ActorDef) (p1 p2 : P) :
    (Actor.new T p1).eqActor (Actor.new T p2) ∧
    (Actor.new T p1).eqDef T ∧
    (Actor.new T p2).eqDef T ∧
    (∀ a b : Actor P, a.name = b.name → a.is_user = b.is_user →
      a.attributes = b.attributes → a.eqActor b) ∧
    (∀ (a : Actor P) (d : ActorDef), a.name = d.name → a.is_user = d.is_user →
      a.attributes = d.attributes → a.eqDef d) := by
  refine ⟨⟨rfl, rfl, rfl⟩, ⟨rfl, rfl, rfl⟩, ⟨rfl, rfl, rfl⟩,
    fun a b h1 h2 h3 => ⟨h1, h2, h3⟩,
    fun a d h1 h2 h3 => ⟨h1, h2, h3⟩⟩

/-- Claim C6: with the multi-user feature off, `is_allowed` returns `Ok(true)`
for every actor, action and resource, regardless of any actor state. -/
theorem is_allowed_single_user_always_allows {P A R : Type}
    (a : Actor P) (action : A) (resource : R) :
    a.is_allowed_single_user action resource = .ok true :=
  rfl

/-- Claim C7: `attribute(name)` looks the name up in a `UserDefined` bag,
returns the role of a `RoleOnly` bag exactly for the name "role", and returns
`none` on an empty bag; in particular an actor bound from `system(name, role)`
has `attribute("role") = some role` and `none` for every other name. -/
theorem actor_attribute_lookup {P : Type} (a : Actor P) (nm : String) :
    (∀ m, a.attributes = .UserDefined m → a.attributeOf nm = m.get nm) ∧
    (∀ role, a.attributes = .RoleOnly role →
      a.attributeOf nm = if nm = "role" then some role else none) ∧
    (a.attributes = .None → a.attributeOf nm = none) ∧
    (∀ name role (p : P),
      (Actor.new (Actor.system name role) p).attributeOf "role" = some role ∧
      (nm ≠ "role" →
        (Actor.new (Actor.system name role) p).attributeOf nm = none)) := by
  refine ⟨fun m hm => ?_, fun role hr => ?_, fun hn => ?_,
    fun name role p => ⟨?_, fun hne => ?_⟩⟩
  · simp [Actor.attributeOf, hm]
  · by_cases h : nm = "role" <;> simp [Actor.attributeOf, hr, h]
  · simp [Actor.attributeOf, hn]
  · simp [Actor.attributeOf, Actor.new, Actor.system]
  · simp [Actor.attributeOf, Actor.new, Actor.system, hne]

/-- Witness for C7: for the system actor `system("krill", "admin")` bound to a
policy, `attribute("role") = some "admin"` and `attribute("id") = none`; an
empty bag yields `none`. -/
theorem actor_attribute_lookup_witness :
    ((Actor.new (P := Unit) (Actor.system "krill" "admin")
        ()).attributeOf "role" = some "admin") ∧
    ((Actor.new (P := Unit) (Actor.system "krill" "admin")
        ()).attributeOf "id" = none) ∧
    ((Actor.new (P := Unit) Actor.anonymous ()).attributeOf "role" = none) :=
  ⟨((actor_attribute_lookup (Actor.new (Actor.system "krill" "admin") ())
      "id").2.2.2 "krill" "admin" ()).1,
   ((actor_attribute_lookup (Actor.new (Actor.system "krill" "admin") ())
      "id").2.2.2 "krill" "admin" ()).2 (by decide),
   (actor_attribute_lookup (Actor.new Actor.anonymous ()) "role").2.2.1 rfl⟩

/-- Claim C8: `as_map` is a total function on attribute bags: the empty bag
maps no key, `RoleOnly r` maps exactly the key "role" to `r`, and a
`UserDefined` bag yields its mapping unchanged (a copy). Totality holds
because `Attributes.as_map` is a total Lean function covering all three
constructors. -/
theorem attributes_as_map_total :
    (∀ k, (Attributes.as_map .None).get k = none) ∧
    (∀ r, (Attributes.as_map (.RoleOnly r)).get "role" = some r ∧
      ∀ k, k ≠ "role" → (Attributes.as_map (.RoleOnly r)).get k = none) ∧
    (∀ m, Attributes.as_map (.UserDefined m) = m) := by
  refine ⟨fun k => ?_, fun r => ⟨?_, fun k hk => ?_⟩, fun m => rfl⟩
  · exact Finmap.lookup_empty k
  · exact Finmap.lookup_insert _
  · have hdef : (Attributes.as_map (.RoleOnly r)).get k
        = Finmap.lookup k
            (Finmap.insert "role" r (∅ : Finmap (fun _ : String => String))) :=
      rfl
    rw [hdef, Finmap.lookup_insert_of_ne _ hk, Finmap.lookup_empty]

/-- Claim C9: round-trip — an actor built by binding the template
`user(name, attrs, new_auth)` to any policy reports `attributes()` equal to
`attrs` exactly, for every name, attribute mapping and optional credential
payload. -/
theorem actor_user_attributes_roundtrip {P : Type}
    (name : String) (attrs : StrMap) (new_auth : Option Auth) (p : P) :
    (Actor.new (Actor.user name attrs new_auth) p).attributes' = attrs :=
  rfl

/-- Claim C10: `test_from_def` drops the template's `new_auth` and
`auth_error` (both become `None` whatever the template holds), so such an
actor never takes the `InvalidCredentials` branch of `is_allowed`: having no
bound policy either, the check always returns `Ok(false)`. -/
theorem test_from_def_clears_auth_fields {P A R E : Type} (d : ActorDef)
    (evalPolicy : P → Actor P → A → R → Except E Bool)
    (action : A) (resource : R) :
    (Actor.test_from_def d : Actor P).new_auth = none ∧
    (Actor.test_from_def d : Actor P).auth_error = none ∧
    (Actor.test_from_def d : Actor P).is_allowed evalPolicy action resource
      = .ok false ∧
    (∀ err : Error,
      (Actor.test_from_def d : Actor P).is_allowed evalPolicy action resource
        ≠ .error err) := by
  refine ⟨rfl, rfl, rfl, fun err h => ?_⟩
  have : (Except.ok false : Except Error Bool) = .error err := h
  exact Except.noConfusion this

/-- Witness for C4 (amended): instantiation at the texts "a" and "b". -/
theorem actorName_eq_iff_same_tag_and_text_witness :
    (ActorName.AsStaticStr "a" = ActorName.AsStaticStr "b" ↔ "a" = "b") ∧
    (ActorName.AsString "a" = ActorName.AsString "b" ↔ "a" = "b") ∧
    ActorName.AsStaticStr "a" ≠ ActorName.AsString "b" :=
  actorName_eq_iff_same_tag_and_text "a" "b"

/-- Witness for C5: binding the anonymous template to the two distinct policy
snapshots `true` and `false` yields actors equal under the Rust Actor
equality. -/
theorem actor_equality_excludes_transient_fields_witness :
    (Actor.new (P := Bool) Actor.anonymous true).eqActor
      (Actor.new (P := Bool) Actor.anonymous false) :=
  (actor_equality_excludes_transient_fields Actor.anonymous true false).1

/-- Witness for C8: the canonical map of `RoleOnly "admin"` holds "admin" at
key "role" and nothing at key "id". -/
theorem attributes_as_map_total_witness :
    (Attributes.as_map (.RoleOnly "admin")).get "role" = some "admin" ∧
    (Attributes.as_map (.RoleOnly "admin")).get "id" = none :=
  ⟨(attributes_as_map_total.2.1 "admin").1,
   (attributes_as_map_total.2.1 "admin").2 "id" (by decide)⟩

/-- Witness for C10: even from a template carrying a deferred credential error,
`test_from_def` yields an actor whose check returns `Ok(false)` rather than
the `InvalidCredentials` error. -/
theorem test_from_def_clears_auth_fields_witness :
    (Actor.test_from_def (P := Unit)
        (Actor.anonymous.with_auth_error "bad token")).is_allowed
        (fun _ _ (_ : String) (_ : String) => (.ok true : Except Unit Bool))
        "read" "resource-1"
      = .ok false :=
  (test_from_def_clears_auth_fields (Actor.anonymous.with_auth_error "bad token")
    _ "read" "resource-1").2.2.1

end Krill
